import Mathlib

/-!
Verification of the clinical data-collection app (`src/app.py`) against its
natural-language specification.  The Python source is shallowly embedded:
each relevant function becomes a Lean definition over explicit inputs, with
the external effects (the spreadsheet API calls, the form framework) passed
in as explicit outcome parameters.
-/

set_option maxRecDepth 8000

namespace ClinicalApp

/-- A cell value sent to the spreadsheet: the app's row mixes Python ints
(age and the 0/1 coerced booleans) and strings (enums and the timestamp). -/
inductive StoreValue where
  | intVal (n : Int)
  | strVal (s : String)
deriving DecidableEq, Repr

/-- Python's `str()` applied to a cell value (used in
`str(data[0]) == last_row[0]` at src/app.py:65). -/
def StoreValue.toStr : StoreValue → String
  | .intVal n => toString n
  | .strVal s => s

/-- Embedding of `validate_form_data` (src/app.py:86-108): collects
human-readable violation messages in source order.  Python's
`if not gender` is truthiness of a string, i.e. emptiness. -/
def validate_form_data (age : Int) (gender species setting acquisition bsi_source : String) :
    List String :=
  (if age < 0 ∨ age > 120 then ["Age must be between 0 and 120"] else [])
    ++ (if gender = "" then ["Gender is required"] else [])
    ++ (if species = "" then ["Species is required"] else [])
    ++ (if setting = "" then ["Clinical setting is required"] else [])
    ++ (if acquisition = "" then ["Acquisition type is required"] else [])
    ++ (if bsi_source = "" then ["BSI source is required"] else [])

/-- Embedding of the row construction in `main` (src/app.py:225-243): the
flat row submitted to the store.  Each radio answer is the literal string
`"Yes"` or `"No"`; the source coerces with `1 if x == "Yes" else 0`. -/
def encodeRecord (age : Int) (gender species setting acquisition bsi_source : String)
    (rectal_cpe_pos chf ckd tumor diabetes immunosuppressed cr blbli_r fqr three_gc_r : String)
    (timestamp : String) : List StoreValue :=
  [ .intVal age,
    .strVal gender,
    .strVal species,
    .intVal (if rectal_cpe_pos = "Yes" then 1 else 0),
    .strVal setting,
    .strVal acquisition,
    .strVal bsi_source,
    .intVal (if chf = "Yes" then 1 else 0),
    .intVal (if ckd = "Yes" then 1 else 0),
    .intVal (if tumor = "Yes" then 1 else 0),
    .intVal (if diabetes = "Yes" then 1 else 0),
    .intVal (if immunosuppressed = "Yes" then 1 else 0),
    .intVal (if cr = "Yes" then 1 else 0),
    .intVal (if blbli_r = "Yes" then 1 else 0),
    .intVal (if fqr = "Yes" then 1 else 0),
    .intVal (if three_gc_r = "Yes" then 1 else 0),
    .strVal timestamp ]

/-- The row as the spec's §4.2 words describe it: fixed order
[age, gender, species, rectal_cpe_positive, clinical_setting, acquisition,
bsi_source, chf, ckd, tumor, diabetes, immunosuppressed,
carbapenem_resistant, blbli_resistant, fluoroquinolone_resistant,
third_gen_cephalosporin_resistant, submitted_at], booleans coerced to
1 for Yes and 0 for No, timestamp last.  Written from the spec to be
compared with `encodeRecord`. -/
def specRow (age : Int) (gender species clinical_setting acquisition bsi_source : String)
    (rectal_cpe_positive chf ckd tumor diabetes immunosuppressed carbapenem_resistant
      blbli_resistant fluoroquinolone_resistant third_gen_cephalosporin_resistant : String)
    (submitted_at : String) : List StoreValue :=
  let coerce : String → StoreValue := fun b => .intVal (if b = "Yes" then 1 else 0)
  [ .intVal age, .strVal gender, .strVal species,
    coerce rectal_cpe_positive,
    .strVal clinical_setting, .strVal acquisition, .strVal bsi_source,
    coerce chf, coerce ckd, coerce tumor, coerce diabetes,
    coerce immunosuppressed,
    coerce carbapenem_resistant, coerce blbli_resistant,
    coerce fluoroquinolone_resistant, coerce third_gen_cephalosporin_resistant,
    .strVal submitted_at ]

/-- A fetched record, as returned by `sheet.get_all_records()`: a dict from
column names to cell strings. -/
abbrev SheetRecord := List (String × String)

/-- Embedding of `get_sheet_data` (src/app.py:76-84): the raw fetch either
yields the record list or raises; the body catches every exception and
returns the empty list. -/
def get_sheet_data (fetchOutcome : Except String (List SheetRecord)) : List SheetRecord :=
  match fetchOutcome with
  | .ok records => records
  | .error _ => []

/-- Embedding of `append_to_sheet` (src/app.py:55-74).
`appendOk` is whether `sheet.append_row` succeeded (it raises on failure);
`fetchResult` is the outcome of the verification `sheet.get_all_values()`
(`none` when it raises).  Any exception is caught and yields `false`.
Indexing an empty list in Python raises, which the `except` clause also
turns into `false`. -/
def append_to_sheet (data : List StoreValue) (appendOk : Bool)
    (fetchResult : Option (List (List String))) : Bool :=
  if appendOk = false then false
  else
    match fetchResult with
    | none => false
    | some all_data =>
      if all_data.length > 1 then
        match all_data.getLast?, data.head? with
        | some lastRow, some d0 =>
          match lastRow.head? with
          | some l0 => decide (d0.toStr = l0)
          | none => false
        | _, _ => false
      else false

/-- Outcome of one underlying connection attempt in `connect_to_gsheet`
(src/app.py:22-53): success, `SpreadsheetNotFound`, a retryable `APIError`,
or any other exception. -/
inductive ConnectOutcome where
  | success
  | spreadsheetNotFound
  | apiError
  | otherError
deriving DecidableEq, Repr

/-- Observable trace of a retried operation: whether it reported success,
how many underlying attempts it issued, and the backoff waits (in seconds)
slept between attempts. -/
structure RetryTrace where
  success : Bool
  attempts : Nat
  waits : List Nat
deriving DecidableEq, Repr

/-- The `max_retries` constant in `connect_to_gsheet` (src/app.py:25). -/
def max_retries : Nat := 3

/-- One unrolling of the `for attempt in range(max_retries)` loop of
`connect_to_gsheet` (src/app.py:26-53), carrying the current attempt
index, the remaining iterations and the waits slept so far.  On an
`APIError` with attempts remaining the code sleeps `2 ** attempt` seconds
and continues; every other branch returns. -/
def connectFrom (outcome : Nat → ConnectOutcome) :
    Nat → Nat → List Nat → RetryTrace
  | _, 0, waits => ⟨false, max_retries, waits⟩
  | attempt, fuel + 1, waits =>
    match outcome attempt with
    | .success => ⟨true, attempt + 1, waits⟩
    | .spreadsheetNotFound => ⟨false, attempt + 1, waits⟩
    | .otherError => ⟨false, attempt + 1, waits⟩
    | .apiError =>
      if attempt < max_retries - 1 then
        connectFrom outcome (attempt + 1) fuel (waits ++ [2 ^ attempt])
      else ⟨false, attempt + 1, waits⟩

/-- Embedding of `connect_to_gsheet` (src/app.py:22-53): up to
`max_retries` attempts starting at attempt 0 with no waits yet. -/
def connect_to_gsheet (outcome : Nat → ConnectOutcome) : RetryTrace :=
  connectFrom outcome 0 max_retries []

/-- Attempt-level trace of `append_to_sheet` (src/app.py:55-74).
`failsAt n` says whether the n-th underlying `append_row` call would raise
a transient `APIError`.  The source body is a single `try` with one
`append_row` call and no loop: exactly one attempt is issued, no wait is
slept, and an `APIError` on that one call is caught and reported as
failure immediately. -/
def append_to_sheet_trace (failsAt : Nat → Bool) (data : List StoreValue)
    (fetchResult : Option (List (List String))) : RetryTrace :=
  if failsAt 0 then ⟨false, 1, []⟩
  else ⟨append_to_sheet data true fetchResult, 1, []⟩

/-- The summary metrics computed in `main` (src/app.py:282-294). -/
structure Stats where
  totalPatients : Nat
  cpePosRate : ℚ
  avgAge : ℚ
  resistantPatients : ℚ
deriving DecidableEq, Repr

/-- A fetched record restricted to its numeric cells, as the metric block
reads them.  `pd.DataFrame(records)` makes one column per key. -/
abbrev NumRecord := List (String × ℚ)

/-- The value a record holds under a column name, if any. -/
def getVal (name : String) : NumRecord → Option ℚ
  | [] => none
  | p :: r => if p.1 = name then some p.2 else getVal name r

/-- Embedding of `df.get(name, pd.Series([0]))` (src/app.py:287,290,293): the column's
values when any record carries the key, otherwise the one-element default
series `[0]`. -/
def dfGet (records : List NumRecord) (name : String) : List ℚ :=
  if records.any (fun r => r.any (fun p => p.1 = name)) then
    records.filterMap (fun r => getVal name r)
  else [0]

/-- The `pandas.Series.mean` of the (always nonempty) series the metric block
produces: sum divided by length. -/
def seriesMean (xs : List ℚ) : ℚ := xs.sum / (xs.length : ℚ)

/-- Embedding of the dataset-summary block of `main` (src/app.py:273-294):
for an empty record list the `if records:` / `if not df.empty:` guards
skip the whole block (an informational message is shown instead), so no
statistics are produced; otherwise the four metrics are computed. -/
def datasetStats (records : List NumRecord) : Option Stats :=
  if records.isEmpty then none
  else some
    { totalPatients := records.length
      cpePosRate := seriesMean (dfGet records "Rectal_CPE_Pos") * 100
      avgAge := seriesMean (dfGet records "Age")
      resistantPatients := (dfGet records "CR").sum }

/-- The `clear_on_submit` argument of `st.form` (src/app.py:142): the
source passes `True`. -/
def clear_on_submit : Bool := true

/-- What the user observes after one submit-button press. -/
structure SubmitResult where
  savedMessage : Bool
  failureMessage : Bool
  formCleared : Bool
deriving DecidableEq, Repr

/-- Embedding of the submit branch of `main` (src/app.py:216-256) together
with the form framework's documented behavior: a form created with
`clear_on_submit=True` resets all its widgets to defaults after every
press of the submit button, regardless of what the handler does.  With
validation errors nothing is appended; otherwise the success message or
the failure message `"Failed to save data. Please try again."`
(src/app.py:256) is shown according to `append_to_sheet`'s result. -/
def handleSubmission (validationErrors : List String) (appendOk : Bool) : SubmitResult :=
  { savedMessage := validationErrors.isEmpty && appendOk
    failureMessage := validationErrors.isEmpty && !appendOk
    formCleared := clear_on_submit }

/-- A cached read: the value and the time it was fetched, for the
`@st.cache_data(ttl=300)` decorator on `get_sheet_data` (src/app.py:76). -/
structure CacheEntry where
  value : List SheetRecord
  fetchedAt : Nat
deriving DecidableEq

/-- The raw read `sheet.get_all_records()` under the error handling of
`get_sheet_data`: the store's records when the call does not raise, the
empty list when it does. -/
def fetchRaw (store : List SheetRecord) (err : Bool) : List SheetRecord :=
  if err then [] else store

/-- The read path `get_sheet_data` as seen through its `@st.cache_data(ttl=300)`
decorator (src/app.py:76-84): a call at time `now` returns the cached
value while it is younger than 300 seconds, and otherwise performs the
raw read and caches its result. -/
def cachedFetch (store : List SheetRecord) (err : Bool)
    (cache : Option CacheEntry) (now : Nat) : List SheetRecord × Option CacheEntry :=
  match cache with
  | some e =>
    if now < e.fetchedAt + 300 then (e.value, some e)
    else
      let v := fetchRaw store err
      (v, some ⟨v, now⟩)
  | none =>
    let v := fetchRaw store err
    (v, some ⟨v, now⟩)

/-- One patient row, carrying only the numeric columns the metric block
reads: a fixed age of 45 and the given Rectal_CPE_Pos and CR flags. -/
def sampleRow (cpe cr : ℚ) : NumRecord :=
  [("Age", 45), ("Rectal_CPE_Pos", cpe), ("CR", cr)]

/-- Ten records, exactly three of which have `CR = 1` (and likewise
exactly three with `Rectal_CPE_Pos = 1`). -/
def tenRecords : List NumRecord :=
  [sampleRow 1 1, sampleRow 1 1, sampleRow 1 1,
   sampleRow 0 0, sampleRow 0 0, sampleRow 0 0, sampleRow 0 0,
   sampleRow 0 0, sampleRow 0 0, sampleRow 0 0]

lemma dfGet_absent (records : List NumRecord) (name : String)
    (h : ∀ r ∈ records, ∀ p ∈ r, p.1 ≠ name) : dfGet records name = [0] := by
  have hfalse : (records.any (fun r => r.any (fun p => p.1 = name))) = false := by
    rw [List.any_eq_false]
    intro r hr
    rw [Bool.not_eq_true, List.any_eq_false]
    intro p hp
    simpa using h r hr p hp
  unfold dfGet
  rw [hfalse]
  rfl

/-- C2: for every validated submission the encoder produces the flat row
in exactly the fixed spec order, with every boolean field coerced to 1
for Yes and 0 for No, and the timestamp in the last (17th) position. -/
theorem encoder_fixed_row_order
    (age : Int) (gender species setting acquisition bsi_source
      rectal_cpe_pos chf ckd tumor diabetes immunosuppressed cr blbli_r fqr three_gc_r
      timestamp : String) :
    encodeRecord age gender species setting acquisition bsi_source
        rectal_cpe_pos chf ckd tumor diabetes immunosuppressed cr blbli_r fqr three_gc_r
        timestamp
      = specRow age gender species setting acquisition bsi_source
          rectal_cpe_pos chf ckd tumor diabetes immunosuppressed cr blbli_r fqr three_gc_r
          timestamp
    ∧ (encodeRecord age gender species setting acquisition bsi_source
        rectal_cpe_pos chf ckd tumor diabetes immunosuppressed cr blbli_r fqr three_gc_r
        timestamp).length = 17
    ∧ (encodeRecord age gender species setting acquisition bsi_source
        rectal_cpe_pos chf ckd tumor diabetes immunosuppressed cr blbli_r fqr three_gc_r
        timestamp).getLast? = some (.strVal timestamp) := by
  refine ⟨rfl, rfl, rfl⟩

/-- C3: the validator accepts exactly the in-range, fully selected inputs:
it returns no violation when age is in [0,120] and all five enum fields
are non-empty; it names each field left at the empty sentinel; with gender
the only empty field it returns exactly one violation, mentioning gender;
and any age outside [0,120] yields the age violation. -/
theorem validator_spec
    (age : Int) (gender species setting acquisition bsi_source : String) :
    ((0 ≤ age ∧ age ≤ 120 ∧ gender ≠ "" ∧ species ≠ "" ∧ setting ≠ "" ∧
        acquisition ≠ "" ∧ bsi_source ≠ "") →
      validate_form_data age gender species setting acquisition bsi_source = [])
    ∧ (gender = "" →
        "Gender is required" ∈ validate_form_data age gender species setting acquisition bsi_source)
    ∧ (species = "" →
        "Species is required" ∈ validate_form_data age gender species setting acquisition bsi_source)
    ∧ (setting = "" →
        "Clinical setting is required" ∈
          validate_form_data age gender species setting acquisition bsi_source)
    ∧ (acquisition = "" →
        "Acquisition type is required" ∈
          validate_form_data age gender species setting acquisition bsi_source)
    ∧ (bsi_source = "" →
        "BSI source is required" ∈
          validate_form_data age gender species setting acquisition bsi_source)
    ∧ ((0 ≤ age ∧ age ≤ 120 ∧ gender = "" ∧ species ≠ "" ∧ setting ≠ "" ∧
          acquisition ≠ "" ∧ bsi_source ≠ "") →
        validate_form_data age gender species setting acquisition bsi_source
          = ["Gender is required"])
    ∧ ((age < 0 ∨ age > 120) →
        "Age must be between 0 and 120" ∈
          validate_form_data age gender species setting acquisition bsi_source) := by
  refine ⟨?_, ?_, ?_, ?_, ?_, ?_, ?_, ?_⟩
  · rintro ⟨h0, h1, hg, hs, hst, ha, hb⟩
    unfold validate_form_data
    rw [if_neg (by omega), if_neg hg, if_neg hs, if_neg hst, if_neg ha, if_neg hb]
    rfl
  · intro hg
    unfold validate_form_data
    rw [if_pos hg]
    simp only [List.mem_append, List.mem_singleton]
    tauto
  · intro hs
    unfold validate_form_data
    rw [if_pos hs]
    simp only [List.mem_append, List.mem_singleton]
    tauto
  · intro hst
    unfold validate_form_data
    rw [if_pos hst]
    simp only [List.mem_append, List.mem_singleton]
    tauto
  · intro ha
    unfold validate_form_data
    rw [if_pos ha]
    simp only [List.mem_append, List.mem_singleton]
    tauto
  · intro hb
    unfold validate_form_data
    rw [if_pos hb]
    simp only [List.mem_append, List.mem_singleton]
    tauto
  · rintro ⟨h0, h1, hg, hs, hst, ha, hb⟩
    unfold validate_form_data
    rw [if_neg (by omega), if_pos hg, if_neg hs, if_neg hst, if_neg ha, if_neg hb]
    rfl
  · intro h
    unfold validate_form_data
    rw [if_pos h]
    simp only [List.mem_append, List.mem_singleton]
    tauto

/-- Witness for `validator_spec`: the valid example of §8 passes, and
gender left unselected alone yields exactly the one gender violation. -/
theorem validator_spec_witness :
    validate_form_data 45 "Female" "Escherichia coli" "ICU" "Hospital" "Primary" = []
    ∧ validate_form_data 45 "" "Escherichia coli" "ICU" "Hospital" "Primary"
        = ["Gender is required"] :=
  ⟨(validator_spec 45 "Female" "Escherichia coli" "ICU" "Hospital" "Primary").1
      (by refine ⟨by decide, by decide, ?_, ?_, ?_, ?_, ?_⟩ <;> decide),
   (validator_spec 45 "" "Escherichia coli" "ICU" "Hospital" "Primary").2.2.2.2.2.2.1
      (by refine ⟨by decide, by decide, rfl, ?_, ?_, ?_, ?_⟩ <;> decide)⟩

/-- C10: every error raised while fetching the row set makes
`get_sheet_data` return the empty list instead of propagating, so a
failed read is indistinguishable from an empty store. -/
theorem fetch_error_returns_empty (e : String) :
    get_sheet_data (.error e) = []
    ∧ get_sheet_data (.error e) = get_sheet_data (.ok []) :=
  ⟨rfl, rfl⟩

lemma append_to_sheet_true_iff (data : List StoreValue) (all_data : List (List String)) :
    append_to_sheet data true (some all_data) = true ↔
      (1 < all_data.length ∧ ∃ lastRow d0 l0,
        all_data.getLast? = some lastRow ∧ data.head? = some d0 ∧
        lastRow.head? = some l0 ∧ d0.toStr = l0) := by
  simp only [append_to_sheet, Bool.true_eq_false, if_false]
  by_cases hlen : all_data.length > 1
  · rw [if_pos hlen]
    cases hgl : all_data.getLast? with
    | none => simp [hgl, hlen]
    | some lastRow =>
      cases hd : data.head? with
      | none => simp [hgl, hd, hlen]
      | some d0 =>
        cases hl0 : lastRow.head? with
        | none => simp [hgl, hd, hl0, hlen]
        | some l0 => simp [hgl, hd, hl0, hlen, eq_comm]
  · rw [if_neg hlen]
    simp [hlen]

lemma cachedFetch_consistent (store : List SheetRecord) (cache : Option CacheEntry) (now : Nat)
    (h : ∀ e, cache = some e → e.value = store) :
    (cachedFetch store false cache now).1 = store ∧
    (∀ e, (cachedFetch store false cache now).2 = some e → e.value = store) := by
  cases cache with
  | none =>
    refine ⟨rfl, ?_⟩
    intro e he
    simp [cachedFetch, fetchRaw] at he
    rw [← he]
  | some e0 =>
    by_cases ht : now < e0.fetchedAt + 300
    · refine ⟨?_, ?_⟩
      · simp [cachedFetch, ht, h e0 rfl]
      · intro e he
        simp [cachedFetch, ht] at he
        rw [← he]
        exact h e0 rfl
    · refine ⟨?_, ?_⟩
      · simp [cachedFetch, ht, fetchRaw]
      · intro e he
        simp [cachedFetch, ht, fetchRaw] at he
        rw [← he]

/-- C1 counterexample: when the underlying store call would fail
transiently on the first two attempts and succeed on the third, the
append does not report success after 3 attempts — `append_to_sheet` has
no retry loop, so it fails after its single attempt. -/
theorem append_does_not_retry_transient_failures :
    ¬ (((append_to_sheet_trace (fun n => decide (n < 2)) [StoreValue.strVal "45"]
          (some [["header"], ["45"]])).success = true)
       ∧ ((append_to_sheet_trace (fun n => decide (n < 2)) [StoreValue.strVal "45"]
          (some [["header"], ["45"]])).attempts = 3)) := by
  decide

/-- C1 amended: the retry-up-to-3-times policy with exponential backoff
waits of 1s then 2s belongs to the connection operation
`connect_to_gsheet`, not to the append: if connect's underlying call
fails transiently exactly twice and then succeeds, connect reports
success after exactly 3 attempts with the non-decreasing waits [1, 2];
`append_to_sheet` always issues exactly one attempt and reports failure
immediately on a transient API error. -/
theorem retry_backoff_on_connect_not_append
    (outcome : Nat → ConnectOutcome) (failsAt : Nat → Bool)
    (data : List StoreValue) (fetchResult : Option (List (List String))) :
    (outcome 0 = ConnectOutcome.apiError → outcome 1 = ConnectOutcome.apiError →
      outcome 2 = ConnectOutcome.success →
      connect_to_gsheet outcome = ⟨true, 3, [1, 2]⟩
        ∧ (connect_to_gsheet outcome).waits.Chain' (· ≤ ·))
    ∧ (append_to_sheet_trace failsAt data fetchResult).attempts = 1
    ∧ (failsAt 0 = true → (append_to_sheet_trace failsAt data fetchResult).success = false) := by
  refine ⟨?_, ?_, ?_⟩
  · intro h0 h1 h2
    have hc : connect_to_gsheet outcome = ⟨true, 3, [1, 2]⟩ := by
      simp [connect_to_gsheet, connectFrom, max_retries, h0, h1, h2]
    refine ⟨hc, ?_⟩
    rw [hc]
    simp [List.chain'_cons, List.chain'_singleton]
  · unfold append_to_sheet_trace
    split
    · rfl
    · rfl
  · intro hf
    unfold append_to_sheet_trace
    rw [if_pos hf]

/-- Witness for `retry_backoff_on_connect_not_append`: with transient
errors on attempts 0 and 1 and success on attempt 2, connect succeeds in
3 attempts with waits [1, 2]; an append whose single call fails reports
failure. -/
theorem retry_backoff_on_connect_not_append_witness :
    connect_to_gsheet (fun n => if n < 2 then ConnectOutcome.apiError else ConnectOutcome.success)
        = ⟨true, 3, [1, 2]⟩
    ∧ (append_to_sheet_trace (fun _ => true) [] none).success = false :=
  ⟨((retry_backoff_on_connect_not_append
      (fun n => if n < 2 then ConnectOutcome.apiError else ConnectOutcome.success)
      (fun _ => true) [] none).1 (by decide) (by decide) (by decide)).1,
   (retry_backoff_on_connect_not_append
      (fun n => if n < 2 then ConnectOutcome.apiError else ConnectOutcome.success)
      (fun _ => true) [] none).2.2 rfl⟩

/-- C4: when the underlying store call succeeds, the append compares the
first field of the row it appended with the first field of the last row
read back: it returns success only if they match, and returns failure on
a mismatch even though the store call itself did not error. -/
theorem append_verification_compares_first_field
    (data : List StoreValue) (all_data : List (List String))
    (d0 : StoreValue) (lastRow : List String) (l0 : String)
    (hd : data.head? = some d0) (hl : all_data.getLast? = some lastRow)
    (hl0 : lastRow.head? = some l0) :
    (append_to_sheet data true (some all_data) = true → d0.toStr = l0)
    ∧ (d0.toStr ≠ l0 → append_to_sheet data true (some all_data) = false) := by
  constructor
  · intro hsucc
    obtain ⟨-, lastRow', d0', l0', hl', hd', hl0', heq⟩ :=
      (append_to_sheet_true_iff data all_data).1 hsucc
    rw [hl] at hl'
    rw [hd] at hd'
    cases hl'
    cases hd'
    rw [hl0] at hl0'
    cases hl0'
    exact heq
  · intro hne
    cases hval : append_to_sheet data true (some all_data) with
    | false => rfl
    | true =>
      obtain ⟨-, lastRow', d0', l0', hl', hd', hl0', heq⟩ :=
        (append_to_sheet_true_iff data all_data).1 hval
      rw [hl] at hl'
      rw [hd] at hd'
      cases hl'
      cases hd'
      rw [hl0] at hl0'
      cases hl0'
      exact absurd heq hne

/-- Witness for `append_verification_compares_first_field`: a successful
store call whose read-back last row starts with "46" while the appended
row starts with "45" makes the append report failure. -/
theorem append_verification_compares_first_field_witness :
    append_to_sheet [StoreValue.strVal "45"] true (some [["Age"], ["46"]]) = false :=
  (append_verification_compares_first_field [StoreValue.strVal "45"] [["Age"], ["46"]]
    (StoreValue.strVal "45") ["46"] "46" rfl rfl rfl).2 (by decide)

/-- C9: append reports failure whenever the post-append read returns at
most one row in total, even when the underlying call succeeded and the
first field matches; success requires the read to return strictly more
than one row. -/
theorem append_success_requires_two_rows
    (data : List StoreValue) (appendOk : Bool)
    (fetchResult : Option (List (List String))) :
    (∀ all_data, fetchResult = some all_data → all_data.length ≤ 1 →
      append_to_sheet data appendOk fetchResult = false)
    ∧ (append_to_sheet data appendOk fetchResult = true →
        ∃ all_data, fetchResult = some all_data ∧ 1 < all_data.length) := by
  constructor
  · intro all_data hf hlen
    subst hf
    cases appendOk with
    | false => rfl
    | true =>
      cases hval : append_to_sheet data true (some all_data) with
      | false => rfl
      | true =>
        obtain ⟨hgt, -⟩ := (append_to_sheet_true_iff data all_data).1 hval
        omega
  · intro hsucc
    cases appendOk with
    | false => exact absurd hsucc (by simp [append_to_sheet])
    | true =>
      cases fetchResult with
      | none => exact absurd hsucc (by simp [append_to_sheet])
      | some all_data =>
        obtain ⟨hgt, -⟩ := (append_to_sheet_true_iff data all_data).1 hsucc
        exact ⟨all_data, rfl, hgt⟩

/-- Witness for `append_success_requires_two_rows`: appending the very
first row to a store with no header leaves one row whose first field
matches, yet the append reports failure. -/
theorem append_success_requires_two_rows_witness :
    append_to_sheet [StoreValue.strVal "45"] true (some [["45"]]) = false :=
  (append_success_requires_two_rows [StoreValue.strVal "45"] true
    (some [["45"]])).1 [["45"]] rfl (by decide)

/-- C5 counterexample: on the failure path (no validation errors, append
failed) the failure message is shown, but the form contents are cleared
rather than preserved, because the form is created with
`clear_on_submit=True`. -/
theorem failure_path_still_clears_form :
    (handleSubmission [] false).failureMessage = true
    ∧ ¬ (handleSubmission [] false).formCleared = false := by
  decide

/-- C5 amended: an append failure after validation passes is surfaced as
the user-visible failure message (and not the success message), but the
form contents are cleared on every submission — including the failure
path — since the form is configured with `clear_on_submit=True`. -/
theorem failure_surfaced_and_form_cleared
    (validationErrors : List String) (appendOk : Bool) :
    (handleSubmission [] false).failureMessage = true
    ∧ (handleSubmission [] false).savedMessage = false
    ∧ (handleSubmission validationErrors appendOk).formCleared = true :=
  ⟨rfl, rfl, rfl⟩

/-- C6 counterexample: for the empty row set the dataset-summary block
reports no statistics at all (the guards skip it), so in particular no
total count of 0 and no 0.0 percentages are reported. -/
theorem empty_rowset_produces_no_stats : datasetStats [] = none := rfl

/-- C6 amended: for the empty row set no statistics are computed (an
informational message replaces them), so no division-by-zero can occur;
for any nonempty row set in which a requested boolean or numeric column
is absent, the statistic falls back to the default series and yields 0.0
rather than failing. -/
theorem aggregator_empty_and_absent_column :
    datasetStats [] = none ∧
    ∀ (records : List NumRecord), records ≠ [] →
      (∀ r ∈ records, ∀ p ∈ r, p.1 ≠ "Rectal_CPE_Pos") →
      (∀ r ∈ records, ∀ p ∈ r, p.1 ≠ "CR") →
      ∃ s, datasetStats records = some s ∧ s.cpePosRate = 0 ∧ s.resistantPatients = 0 ∧
        s.totalPatients = records.length := by
  refine ⟨rfl, ?_⟩
  intro records hne hcpe hcr
  have hds : datasetStats records = some
      { totalPatients := records.length
        cpePosRate := seriesMean (dfGet records "Rectal_CPE_Pos") * 100
        avgAge := seriesMean (dfGet records "Age")
        resistantPatients := (dfGet records "CR").sum } := by
    unfold datasetStats
    rw [if_neg (by simpa using hne)]
  refine ⟨_, hds, ?_, ?_, rfl⟩
  · show seriesMean (dfGet records "Rectal_CPE_Pos") * 100 = 0
    rw [dfGet_absent records _ hcpe]
    norm_num [seriesMean]
  · show (dfGet records "CR").sum = 0
    rw [dfGet_absent records _ hcr]
    norm_num

/-- Witness for `aggregator_empty_and_absent_column`: a one-record row
set carrying only an Age column yields statistics with 0.0 for the
absent CPE and CR columns. -/
theorem aggregator_empty_and_absent_column_witness :
    ∃ s, datasetStats [[("Age", (45 : ℚ))]] = some s ∧ s.cpePosRate = 0 ∧
      s.resistantPatients = 0 ∧ s.totalPatients = [[("Age", (45 : ℚ))]].length :=
  aggregator_empty_and_absent_column.2 [[("Age", (45 : ℚ))]]
    (by decide) (by decide) (by decide)

/-- C7 counterexample: for ten records of which exactly three have
CR = 1, the carbapenem-resistant metric is reported as 3 — a count, not
the percentage 30.0. -/
theorem cr_statistic_is_count_not_percentage :
    (datasetStats tenRecords).map Stats.resistantPatients = some 3
    ∧ (datasetStats tenRecords).map Stats.resistantPatients ≠ some 30 := by
  have h : (datasetStats tenRecords).map Stats.resistantPatients = some 3 := by
    simp [datasetStats, tenRecords, sampleRow, dfGet, seriesMean, getVal, List.filterMap_cons]
    norm_num
  refine ⟨h, ?_⟩
  rw [h]
  simp only [ne_eq, Option.some.injEq]
  norm_num

/-- C7 amended: for the ten-record row set with three CR = 1 rows the
carbapenem-resistant statistic is the count 3 (a sum, not a percentage);
the mean×100 percentage is computed for the Rectal_CPE_Pos column, which
with three positives out of ten is reported as 30.0. -/
theorem cr_count_and_cpe_rate :
    (datasetStats tenRecords).map Stats.resistantPatients = some 3
    ∧ (datasetStats tenRecords).map Stats.cpePosRate = some 30 := by
  constructor
  · simp [datasetStats, tenRecords, sampleRow, dfGet, seriesMean, getVal, List.filterMap_cons]
    norm_num
  · simp [datasetStats, tenRecords, sampleRow, dfGet, seriesMean, getVal, List.filterMap_cons]
    norm_num

/-- C8: two consecutive reads with no intervening append, no concurrent
writers (the store is fixed) and no read errors return identical
content, whether the second read is served from the 5-minute cache or
refetched. -/
theorem fetch_all_idempotent
    (store : List SheetRecord) (cache0 : Option CacheEntry) (t1 t2 : Nat)
    (hconsistent : ∀ e, cache0 = some e → e.value = store) :
    (cachedFetch store false cache0 t1).1
      = (cachedFetch store false (cachedFetch store false cache0 t1).2 t2).1 := by
  obtain ⟨h1, h2⟩ := cachedFetch_consistent store cache0 t1 hconsistent
  obtain ⟨h3, -⟩ := cachedFetch_consistent store (cachedFetch store false cache0 t1).2 t2 h2
  rw [h1, h3]

/-- Witness for `fetch_all_idempotent`: starting from an empty cache,
reading at time 0 and again at time 100 returns the same content. -/
theorem fetch_all_idempotent_witness :
    (cachedFetch [[("Age", "45")]] false none 0).1
      = (cachedFetch [[("Age", "45")]] false
          (cachedFetch [[("Age", "45")]] false none 0).2 100).1 :=
  fetch_all_idempotent [[("Age", "45")]] none 0 100 (fun _ h => Option.noConfusion h)

end ClinicalApp
